import Mathlib

/-!
Verification development for the AppletScriptorium `Summarizer` package.

Text is modelled as `List Char` (`Str`). Python string primitives used by the
source (`str.strip`, `str.lower`, `str.split`, `str.splitlines`, substring
containment with `in`, `str.replace`) are embedded as executable functions on
`Str`. The components under verification are shallow embeddings of:

- `Summarizer/quality_checks.py`   (`check_content_quality`, indicator lists)
- `Summarizer/content_cleaner.py`  (`strip_cruft`, `extract_content` decision logic)
- `Summarizer/summarizer.py`       (`_validate_bullet_structure`, `_parse_bullets_text`,
                                    the 2-attempt validation/retry loop)
- `Summarizer/article_fetcher.py`  (`fetch_article`, `_fetch_markdown_fallback`, caches)
- `Summarizer/markdown_cleanup.py` (`clean_markdown_content`)

External I/O (httpx, url-to-md CLI, Jina API, LLM backends, extractor
libraries) is abstracted as oracles supplied in environment records; every
network/subprocess interaction the source performs is recorded in an explicit
event trace so that claims about which strategies run (and how often) are
statable.
-/

/-- Text as a list of characters, mirroring Python `str` for the ASCII-centric
data this program handles. -/
abbrev Str := List Char

/-- The whitespace set of Python's default `str.strip` / `\s` for the ASCII
range: space, tab, newline, carriage return, vertical tab, form feed. -/
def pyIsSpace (c : Char) : Bool :=
  c = ' ' || c = '\t' || c = '\n' || c = '\x0d' || c.toNat = 0x0b || c.toNat = 0x0c

/-- Python `str.strip()` (no argument): drop leading and trailing whitespace. -/
def pyStrip (s : Str) : Str :=
  ((s.dropWhile pyIsSpace).reverse.dropWhile pyIsSpace).reverse

/-- Python `str.rstrip()`: drop trailing whitespace. -/
def pyRstrip (s : Str) : Str :=
  (s.reverse.dropWhile pyIsSpace).reverse

/-- Python `str.lower()` (ASCII case fold; the indicator strings compared by
the source are ASCII). -/
def pyLower (s : Str) : Str := s.map Char.toLower

/-- Python substring test `needle in hay`. -/
def containsSub (needle hay : Str) : Bool := decide (needle <:+: hay)

/-- Python `str.startswith`. -/
def startsWith (pre s : Str) : Bool := decide (pre <+: s)

/-- Python `str.endswith`. -/
def endsWith (suf s : Str) : Bool := decide (suf <:+ s)

/-- Characters Python `str.splitlines` treats as line terminators
(`\n`, `\r`, `\v`, `\f`, `\x1c`-`\x1e`, `\x85`, ` `, ` `). -/
def isLineBreakChar (c : Char) : Bool :=
  c = '\n' || c = '\x0d' || c.toNat = 0x0b || c.toNat = 0x0c ||
  c.toNat = 0x1c || c.toNat = 0x1d || c.toNat = 0x1e ||
  c.toNat = 0x85 || c.toNat = 0x2028 || c.toNat = 0x2029

/-- Accumulator loop of `pySplitlines`: `afterCr` records that the previous
character was a carriage return (so an immediately following `\n` belongs to
the same `\r\n` terminator), `cur` is the current line built so far. -/
def splitlinesAux : Bool → Str → Str → List Str
  | _, cur, [] => if cur = [] then [] else [cur]
  | afterCr, cur, c :: rest =>
    if c = '\n' then
      if afterCr then splitlinesAux false cur rest
      else cur :: splitlinesAux false [] rest
    else if isLineBreakChar c then
      cur :: splitlinesAux (c = '\x0d') [] rest
    else
      splitlinesAux false (cur ++ [c]) rest

/-- Python `str.splitlines()`: split at line-break characters, treating
`\r\n` as a single terminator; a trailing terminator yields no empty final
line and the empty string yields no lines at all. -/
def pySplitlines (s : Str) : List Str := splitlinesAux false [] s

/-- `"\n".join(lines)` as used throughout the source. -/
def joinLines : List Str → Str
  | [] => []
  | [l] => l
  | l :: ls => l ++ '\n' :: joinLines ls

/-! ## `Summarizer/quality_checks.py` -/

/-- `CLOUDFLARE_INDICATORS` from `quality_checks.py`. -/
def CLOUDFLARE_INDICATORS : List Str :=
  ["Just a moment".toList, "checking your browser".toList, "Cloudflare".toList,
   "Ray ID".toList, "enable JavaScript".toList, "challenge passed".toList]

/-- ASCII apostrophe, built by code point so the character never appears
literally in this file. -/
def apostropheChar : Char := Char.ofNat 39

/-- `PAYWALL_INDICATORS` from `quality_checks.py`. -/
def PAYWALL_INDICATORS : List Str :=
  ["Get Access".toList, "Purchase this article".toList,
   "Get Institutional Access".toList, "full access to this article".toList,
   "subscription options".toList, "Already a subscriber".toList,
   "purchase options".toList]

/-- `UI_INDICATORS` from `quality_checks.py`; the sixth entry is
`I'm not a medical professional` with the apostrophe assembled by code point. -/
def UI_INDICATORS : List Str :=
  ["Please choose".toList, "Sign in".toList, "Register".toList,
   "Subscribe".toList, "Select your specialty".toList,
   "I".toList ++ [apostropheChar] ++ "m not a medical professional".toList,
   "Log in to continue".toList, "Create account".toList,
   "Why publish in".toList, "Click below to find out".toList,
   "Sponsored by".toList]

/-- Matcher for `REFERENCE_PATTERN = ^\d+\.\s+[A-Z][a-z]+,?\s+[A-Z]` applied
with `re.match` (prefix match): one or more digits, a period, whitespace, a
capitalized word, an optional comma, whitespace, and another capital.
Quantifier greediness never needs backtracking here because each character
class is disjoint from its successor. -/
def referencePatternMatch (s : Str) : Bool :=
  let digits := s.takeWhile Char.isDigit
  let rest0 := s.drop digits.length
  if digits = [] then false
  else match rest0 with
    | '.' :: rest1 =>
      let ws1 := rest1.takeWhile pyIsSpace
      let rest2 := rest1.drop ws1.length
      if ws1 = [] then false
      else match rest2 with
        | c :: rest3 =>
          if !(c.isUpper && c.isAlpha) then false
          else
            let lows := rest3.takeWhile (fun d => d.isLower && d.isAlpha)
            let rest4 := rest3.drop lows.length
            if lows = [] then false
            else
              let rest5 : Str := match rest4 with
                | ',' :: r => r
                | r => r
              let ws2 := rest5.takeWhile pyIsSpace
              let rest6 := rest5.drop ws2.length
              if ws2 = [] then false
              else match rest6 with
                | d :: _ => d.isUpper && d.isAlpha
                | [] => false
        | [] => false
    | _ => false

/-- `QualityResult` dataclass from `quality_checks.py`. -/
structure QualityResult where
  is_failure : Bool
  reason : String
  deriving Repr, DecidableEq

/-- `content.split('\n')` followed by per-line `strip()` and the non-empty
filter, i.e. the `non_empty_lines` local of `check_content_quality`. -/
def nonEmptyLines (content : Str) : List Str :=
  ((content.splitOn '\n').map pyStrip).filter (· ≠ [])

/-- Number of `CLOUDFLARE_INDICATORS` whose lowercase form occurs in the
lowercased content. -/
def cloudflareCount (content : Str) : Nat :=
  (CLOUDFLARE_INDICATORS.filter (fun i => containsSub (pyLower i) (pyLower content))).length

/-- Number of `PAYWALL_INDICATORS` whose lowercase form occurs in the
lowercased content. -/
def paywallCount (content : Str) : Nat :=
  (PAYWALL_INDICATORS.filter (fun i => containsSub (pyLower i) (pyLower content))).length

/-- Number of `UI_INDICATORS` occurring (case-sensitively) in the content. -/
def uiCount (content : Str) : Nat :=
  (UI_INDICATORS.filter (fun i => containsSub i content)).length

/-- Number of non-empty lines matching `REFERENCE_PATTERN`. -/
def referenceLineCount (content : Str) : Nat :=
  ((nonEmptyLines content).filter referencePatternMatch).length

/-- `check_content_quality` from `quality_checks.py`.  The references-only
ratio test `reference_lines / len(non_empty_lines) > 0.7` (Python float
division) is modelled exactly as the rational inequality
`10 * reference_lines > 7 * len(non_empty_lines)`; the two agree for every
list length the program can encounter. -/
def check_content_quality (content : Str) : QualityResult :=
  if content = [] ∨ pyStrip content = [] then
    ⟨true, "empty content"⟩
  else if nonEmptyLines content = [] then
    ⟨true, "empty content"⟩
  else if 2 ≤ cloudflareCount content then
    ⟨true, "Cloudflare protection blocked content access"⟩
  else if 2 ≤ paywallCount content then
    ⟨true, "content behind paywall"⟩
  else if 2 ≤ uiCount content then
    ⟨true, "content appears to be UI elements"⟩
  else if 10 < (nonEmptyLines content).length ∧
          7 * (nonEmptyLines content).length < 10 * referenceLineCount content then
    ⟨true, "content appears to be references section only"⟩
  else
    ⟨false, ""⟩

/-- `is_low_quality` from `quality_checks.py`. -/
def is_low_quality (content : Str) : Bool :=
  (check_content_quality content).is_failure

/-! ## `Summarizer/content_cleaner.py` -/

/-- Matcher for `^\[Google Scholar\]\(https?://scholar\.google\.com/[^\)]+\)$`
(`_CRUFT_PATTERNS[0]`): the anchored pattern matches exactly the strings
consisting of the literal link prefix, at least one non-`)` character, and a
final closing parenthesis. -/
def gsLinkPatternMatch (s : Str) : Bool :=
  let s1 := "[Google Scholar](http".toList
  if startsWith s1 s then
    let r0 := s.drop s1.length
    let r1 : Str := match r0 with
      | 's' :: r => r
      | r => r
    let s2 := "://scholar.google.com/".toList
    if startsWith s2 r1 then
      let body := r1.drop s2.length
      match body.getLast? with
      | some ')' => body.dropLast ≠ [] && !body.dropLast.contains ')'
      | _ => false
    else false
  else false

/-- Matcher for `^<https?://[^\s>]+>$` (`_CRUFT_PATTERNS[1]`). -/
def angleUrlPatternMatch (s : Str) : Bool :=
  match s with
  | '<' :: 'h' :: 't' :: 't' :: 'p' :: r0 =>
    let r1 : Str := match r0 with
      | 's' :: r => r
      | r => r
    match r1 with
    | ':' :: '/' :: '/' :: body =>
      (match body.getLast? with
       | some '>' => body.dropLast ≠ [] &&
           body.dropLast.all (fun c => !pyIsSpace c && c ≠ '>')
       | _ => false)
    | _ => false
  | _ => false

/-- Matcher for `^\d+\.\s+.*\[Google Scholar\].*$` (`_CRUFT_PATTERNS[2]`):
one or more digits, a period, at least one whitespace character, and
`[Google Scholar]` somewhere in the remainder.  The inputs are single lines
(no newline characters), so `.` matches every remaining character. -/
def gsRefPatternMatch (s : Str) : Bool :=
  let digits := s.takeWhile Char.isDigit
  if digits = [] then false
  else match s.drop digits.length with
    | '.' :: w :: rest =>
      pyIsSpace w && containsSub ("[Google Scholar]".toList) rest
    | _ => false

/-- Matcher for `^https://doi\.org/\S+$` (`_CRUFT_PATTERNS[3]`). -/
def doiPatternMatch (s : Str) : Bool :=
  let p := "https://doi.org/".toList
  if startsWith p s then
    let body := s.drop p.length
    body ≠ [] && body.all (fun c => !pyIsSpace c)
  else false

/-- `_CRUFT_PATTERNS` from `content_cleaner.py`, in source order. -/
def _CRUFT_PATTERNS : List (Str → Bool) :=
  [gsLinkPatternMatch, angleUrlPatternMatch, gsRefPatternMatch, doiPatternMatch]

/-- `strip_cruft` from `content_cleaner.py`: keep exactly the lines whose
stripped form matches none of the cruft patterns, and rejoin with newlines. -/
def strip_cruft (markdown : Str) : Str :=
  joinLines ((pySplitlines markdown).filter
    (fun line => !(_CRUFT_PATTERNS.any (fun p => p (pyStrip line)))))

/-- `_sanitize_html` from `content_cleaner.py`: remove NUL, then the control
characters `\x01`-`\x08`, `\x0b`-`\x0c`, `\x0e`-`\x1f`. -/
def sanitize_html (html : Str) : Str :=
  (html.filter (fun c => c.toNat ≠ 0)).filter
    (fun c => !(1 ≤ c.toNat && c.toNat ≤ 8 || c.toNat = 0x0b || c.toNat = 0x0c ||
                0x0e ≤ c.toNat && c.toNat ≤ 0x1f))

/-- `len(content.split())`: the number of maximal whitespace-free runs. -/
def pyWordCountAux : Bool → Str → Nat
  | _, [] => 0
  | inWord, c :: rest =>
    if pyIsSpace c then pyWordCountAux false rest
    else (if inWord then 0 else 1) + pyWordCountAux true rest

/-- Word count as computed by `extract_content` (`len(content.split())`). -/
def pyWordCount (s : Str) : Nat := pyWordCountAux false s

/-- `_clean_extracted_text` from `content_cleaner.py`: right-strip each line,
keep lines with non-blank content, rejoin with newlines. -/
def clean_extracted_text (text : Str) : Str :=
  joinLines (((pySplitlines text).map pyRstrip).filter (fun l => pyStrip l ≠ []))

/-- Which extractor ran, recorded in the invocation trace of
`extract_content`. -/
inductive ExtractorCall
  | trafilatura
  | readability
  deriving Repr, DecidableEq

/-- Oracle for the two extraction libraries `extract_content` drives:
`trafilatura.extract` (which may return `None` or raise) and the
readability-lxml → BeautifulSoup → markdownify chain, each applied to the
sanitized HTML. -/
structure ExtractEnv where
  trafilatura : Str → Except Str (Option Str)
  readabilityMd : Str → Str

/-- `extract_content` from `content_cleaner.py`, instrumented with the list
of extractor invocations.  The trafilatura output is accepted when its word
count is at least 100 and `is_low_quality` passes; in every other case
(including `None` results and raised exceptions) the single readability-based
fallback is used. -/
def extract_content (env : ExtractEnv) (html : Str) : Str × List ExtractorCall :=
  match env.trafilatura (sanitize_html html) with
  | .ok (some c) =>
    if 100 ≤ pyWordCount c ∧ is_low_quality c = false then
      (clean_extracted_text c, [.trafilatura])
    else
      (clean_extracted_text (env.readabilityMd (sanitize_html html)),
       [.trafilatura, .readability])
  | .ok none =>
    (clean_extracted_text (env.readabilityMd (sanitize_html html)),
     [.trafilatura, .readability])
  | .error _ =>
    (clean_extracted_text (env.readabilityMd (sanitize_html html)),
     [.trafilatura, .readability])

/-! ## `Summarizer/summarizer.py` -/

/-- The `required_labels` list of `_validate_bullet_structure`. -/
def requiredLabels : List Str :=
  ["**KEY FINDING**".toList, "**TACTICAL WIN".toList,
   "**MARKET SIGNAL".toList, "**CONCERN**".toList]

/-- Decimal rendering of a `Nat`, for the f-string error messages. -/
def natToStr (n : Nat) : Str := (toString n).toList

/-- `', '.join(labels)` from the validation error message. -/
def joinCommaSpace (ls : List Str) : Str := List.intercalate ", ".toList ls

/-- The `missing_labels` local of `_validate_bullet_structure`: required
labels not occurring as substrings of `"\n".join(bullets)`. -/
def missingLabels (bullets : List Str) : List Str :=
  requiredLabels.filter (fun l => !containsSub l (joinLines bullets))

/-- `_validate_bullet_structure` from `summarizer.py`: accept 3-4 bullets
whose concatenation (joined with newlines) contains every required label, or
else accept the raw output as prose when its stripped length lies in
[100, 2000]; otherwise report the specific failure. -/
def validate_bullet_structure (bullets : List Str) (raw : Str) : Bool × Str :=
  if 3 ≤ bullets.length ∧ bullets.length ≤ 4 ∧ missingLabels bullets = [] then
    (true, [])
  else if 100 ≤ (pyStrip raw).length ∧ (pyStrip raw).length ≤ 2000 then
    (true, [])
  else if bullets.length < 3 then
    (false, "Expected 3-4 bullets, got ".toList ++ natToStr bullets.length ++
      ", and output not valid prose (".toList ++ natToStr (pyStrip raw).length ++
      " chars)".toList)
  else if 4 < bullets.length then
    (false, "Expected 3-4 bullets, got ".toList ++ natToStr bullets.length)
  else
    (false, "Expected 3-4 bullets with required labels, got ".toList ++
      natToStr bullets.length ++ " bullets with missing labels: ".toList ++
      joinCommaSpace (missingLabels bullets))

/-- `_sentence_split`'s character loop: flush the buffer at `.`/`!`/`?`
unless the terminator sits inside a decimal number (digit before it, digit or
`)` after it). -/
def sentenceSplitGo : Str → Option Char → Str → List Str → List Str
  | [], _, buffer, acc =>
    acc ++ (if pyStrip buffer ≠ [] then [pyStrip buffer] else [])
  | c :: rest, prev, buffer, acc =>
    let buffer' := buffer ++ [c]
    if c = '.' ∨ c = '!' ∨ c = '?' then
      let nextDigit := match rest with | d :: _ => d.isDigit | [] => false
      let nextParen := match rest with | d :: _ => d = ')' | [] => false
      let prevDigit := match prev with | some p => p.isDigit | none => false
      if prevDigit && (nextDigit || nextParen) then
        sentenceSplitGo rest (some c) buffer' acc
      else
        sentenceSplitGo rest (some c) []
          (acc ++ (if pyStrip buffer' ≠ [] then [pyStrip buffer'] else []))
    else
      sentenceSplitGo rest (some c) buffer' acc

/-- `_sentence_split` from `summarizer.py` (keeps at most 4 sentences). -/
def sentence_split (text : Str) : List Str :=
  (sentenceSplitGo text none [] []).take 4

/-- Emoji targets of `_normalize_bullet_tags`, by code point. -/
def rocketEmoji : Str := [Char.ofNat 0x1F680]

/-- The map emoji (with variation selector) for `ROADMAP`. -/
def mapEmoji : Str := [Char.ofNat 0x1F5FA, Char.ofNat 0xFE0F]

/-- The eyes emoji for `WATCH`. -/
def eyesEmoji : Str := [Char.ofNat 0x1F440]

/-- The red circle emoji for `URGENT`. -/
def redCircleEmoji : Str := [Char.ofNat 0x1F534]

/-- The yellow circle emoji for `NOTABLE`. -/
def yellowCircleEmoji : Str := [Char.ofNat 0x1F7E1]

/-- The black circle emoji for `CONTEXT`. -/
def blackCircleEmoji : Str := [Char.ofNat 0x26AB]

/-- `tactical_mappings` of `_normalize_bullet_tags`, in insertion order. -/
def tacticalMappings : List (Str × Str) :=
  [("SHIP NOW".toList, rocketEmoji), ("ROADMAP".toList, mapEmoji),
   ("WATCH".toList, eyesEmoji)]

/-- `market_mappings` of `_normalize_bullet_tags`, in insertion order. -/
def marketMappings : List (Str × Str) :=
  [("URGENT".toList, redCircleEmoji), ("NOTABLE".toList, yellowCircleEmoji),
   ("CONTEXT".toList, blackCircleEmoji)]

/-- `placeholder_mappings` of `_normalize_bullet_tags`, in insertion order. -/
def placeholderMappings : List (Str × Str) :=
  [("[action-tag]".toList, '[' :: mapEmoji ++ "]".toList),
   ("[urgency-tag]".toList, '[' :: yellowCircleEmoji ++ "]".toList),
   ("[TAG]".toList, '[' :: yellowCircleEmoji ++ "]".toList)]

/-- Whether a bracket interior `m` is matched by `(?:[^\]]*\s+)?TAG` with
`re.IGNORECASE`: `m` ends with the tag (case-insensitively) and any material
before the tag ends with a whitespace character. -/
def tagBracketMatch (tag m : Str) : Bool :=
  if tag.length ≤ m.length ∧ pyLower (m.drop (m.length - tag.length)) = pyLower tag then
    match (m.take (m.length - tag.length)).getLast? with
    | none => true
    | some c => pyIsSpace c
  else false

/-- Length of the match of `\[(?:[^\]]*\s+)?TAG\]` starting at the head of
`s`, if any.  Because neither `[^\]]*`, `\s+`, nor the tags contain `]`, a
match always ends at the first `]` after the opening bracket, so the interior
is uniquely determined. -/
def matchTagLen (tag : Str) (s : Str) : Option Nat :=
  match s with
  | '[' :: rest =>
    let inner := rest.takeWhile (· ≠ ']')
    if inner.length < rest.length ∧ tagBracketMatch tag inner then
      some (inner.length + 2)
    else none
  | _ => none

/-- `re.search` for the tag pattern: a match starts at some position. -/
def searchTag (tag : Str) (s : Str) : Bool :=
  s.tails.any (fun t => (matchTagLen tag t).isSome)

/-- `re.sub` for the tag pattern, replacing each non-overlapping leftmost
match with `[emoji]`.  Fuel is the input length; each step consumes at least
one character, so the fuel never runs out on the initial call. -/
def subTagFuel (tag emoji : Str) : Nat → Str → Str
  | _, [] => []
  | 0, s => s
  | fuel + 1, c :: rest =>
    match matchTagLen tag (c :: rest) with
    | some len => '[' :: (emoji ++ ']' :: subTagFuel tag emoji fuel ((c :: rest).drop len))
    | none => c :: subTagFuel tag emoji fuel rest

/-- `re.sub(pattern, '[emoji]', s, flags=re.IGNORECASE)` for a tag pattern. -/
def subTag (tag emoji : Str) (s : Str) : Str := subTagFuel tag emoji s.length s

/-- Python `str.replace(old, new)` for non-empty `old`: replace leftmost
non-overlapping occurrences.  Fuel as in `subTagFuel`. -/
def pyReplaceFuel (old new : Str) : Nat → Str → Str
  | _, [] => []
  | 0, s => s
  | fuel + 1, c :: rest =>
    if startsWith old (c :: rest) ∧ old ≠ [] then
      new ++ pyReplaceFuel old new fuel ((c :: rest).drop old.length)
    else
      c :: pyReplaceFuel old new fuel rest

/-- Python `str.replace(old, new)` (for the non-empty `old`s used here). -/
def pyReplace (old new s : Str) : Str := pyReplaceFuel old new s.length s

/-- `_normalize_bullet_tags` from `summarizer.py`: canonicalize bracketed
tactical and market tags to emoji-only form, then substitute the literal
placeholder tags. -/
def normalize_bullet_tags (bullet : Str) : Str :=
  let r0 := tacticalMappings.foldl
    (fun r p => if searchTag p.1 r then subTag p.1 p.2 r else r) bullet
  let r1 := marketMappings.foldl
    (fun r p => if searchTag p.1 r then subTag p.1 p.2 r else r) r0
  placeholderMappings.foldl
    (fun r p => if containsSub p.1 r then pyReplace p.1 p.2 r else r) r1

/-- The ASCII/Unicode bullet marker `•`. -/
def unicodeBullet : Char := Char.ofNat 0x2022

/-- One iteration of `_parse_bullets_text`'s line loop: `- `, `* ` and `• `
markers take `line[2:]`, numbered markers `N. ` / `N) ` take `line[3:]`. -/
def parseLineBullet (line : Str) : Option Str :=
  if startsWith "- ".toList line || startsWith "* ".toList line ||
      startsWith [unicodeBullet, ' '] line then
    some (pyStrip (line.drop 2))
  else
    match line with
    | c0 :: c1 :: c2 :: rest =>
      if c0.isDigit && (c1 = '.' || c1 = ')') && c2 = ' ' then
        some (pyStrip rest)
      else none
    | _ => none

/-- `_parse_bullets_text` from `summarizer.py`: collect marker lines from the
stripped non-empty lines; if none and the output is non-empty, fall back to
sentence splitting; finally normalize tags in each non-empty bullet.
(`_parse_bullets` tries `json.loads` first; for the non-JSON outputs treated
in this development that attempt raises and delegates here.) -/
def parse_bullets_text (output : Str) : List Str :=
  let lines := ((pySplitlines output).map pyStrip).filter (· ≠ [])
  let bullets := lines.filterMap parseLineBullet
  let bullets := if bullets = [] ∧ output ≠ [] then sentence_split output else bullets
  (bullets.filter (· ≠ [])).map normalize_bullet_tags

/-- One backend attempt of `summarize_article`, as the loop sees it: the raw
LLM output and the bullets `_parse_bullets` produced from it (the parse is
supplied alongside the raw text so the loop model is independent of which of
the JSON or text parsing branches produced the bullets). -/
structure SummAttempt where
  raw : Str
  bullets : List Str

/-- `SummarizerError` message raised when an attempt parses to no bullets. -/
def noBulletsMsg (backendUsed : Str) : Str :=
  "No summary bullets returned by ".toList ++ backendUsed

/-- `SummarizerError` message raised after both attempts fail validation
(`max_attempts = 2` in the source). -/
def validationFailedMsg (lastErr : Str) : Str :=
  "Summary validation failed after 2 attempts: ".toList ++ lastErr

/-- The validation/retry loop of `summarize_article` (`max_attempts = 2`),
with the backend call, parse, and result-dict construction abstracted to the
per-attempt data: raise immediately when an attempt parses to no bullets,
accept the first attempt that validates, and after two failed validations
raise with the last validation message. -/
def summarize_article_attempts (backendUsed : Str) (a1 a2 : SummAttempt) :
    Except Str (List Str) :=
  if a1.bullets = [] then .error (noBulletsMsg backendUsed)
  else if (validate_bullet_structure a1.bullets a1.raw).1 then .ok a1.bullets
  else if a2.bullets = [] then .error (noBulletsMsg backendUsed)
  else if (validate_bullet_structure a2.bullets a2.raw).1 then .ok a2.bullets
  else .error (validationFailedMsg (validate_bullet_structure a2.bullets a2.raw).2)

/-! ## `Summarizer/markdown_cleanup.py` -/

/-- Matcher for `^\s*\*\s+\[\+?\d` (`_SECTION_PATTERNS[0]`, a prefix match):
optional whitespace, `*`, whitespace, `[`, an optional `+`, a digit. -/
def telephonePatternMatch (line : Str) : Bool :=
  match line.dropWhile pyIsSpace with
  | '*' :: r1 =>
    let ws := r1.takeWhile pyIsSpace
    let r2 := r1.drop ws.length
    if ws = [] then false
    else match r2 with
      | '[' :: '+' :: d :: _ => d.isDigit
      | '[' :: d :: _ => d.isDigit
      | _ => false
  | _ => false

/-- Python `\w` for the ASCII range: alphanumeric or underscore. -/
def isWordChar (c : Char) : Bool := c.isAlphanum || c = '_'

/-- Matcher for `^\s*##\s+more\b` with `re.IGNORECASE`
(`_SECTION_PATTERNS[1]`, a prefix match). -/
def moreHeadingPatternMatch (line : Str) : Bool :=
  match line.dropWhile pyIsSpace with
  | '#' :: '#' :: r1 =>
    let ws := r1.takeWhile pyIsSpace
    let r2 := r1.drop ws.length
    if ws = [] then false
    else if pyLower (r2.take 4) = "more".toList then
      match r2.drop 4 with
      | [] => true
      | c :: _ => !isWordChar c
    else false
  | _ => false

/-- The line loop of `clean_markdown_content`: blank lines reset the
skip-section flag and stay; a section-pattern line starts skipping and is
recorded as removed; skipped lines are recorded as removed; other lines are
kept right-stripped. -/
def cleanMdLoop : Bool → List Str → List Str × List Str
  | _, [] => ([], [])
  | skipSection, line :: rest =>
    if pyStrip line = [] then
      let (c, r) := cleanMdLoop false rest
      ([] :: c, r)
    else if telephonePatternMatch line || moreHeadingPatternMatch line then
      let (c, r) := cleanMdLoop true rest
      (c, pyStrip line :: r)
    else if skipSection then
      let (c, r) := cleanMdLoop skipSection rest
      (c, pyStrip line :: r)
    else
      let (c, r) := cleanMdLoop skipSection rest
      (pyRstrip line :: c, r)

/-- The blank-line collapsing pass of `clean_markdown_content`: keep a line
unless it extends a blank streak to length 2 or more. -/
def collapseBlanks : Nat → List Str → List Str
  | _, [] => []
  | streak, l :: ls =>
    let streak' := if (pyStrip l).isEmpty then streak + 1 else 0
    if streak' < 2 then l :: collapseBlanks streak' ls
    else collapseBlanks streak' ls

/-- The leading/trailing blank-line trim of `clean_markdown_content`. -/
def trimBlankLines (ls : List Str) : List Str :=
  ((ls.dropWhile (fun l => (pyStrip l).isEmpty)).reverse.dropWhile
    (fun l => (pyStrip l).isEmpty)).reverse

/-- `clean_markdown_content` from `markdown_cleanup.py`: drop
navigation/contact sections, collapse blank runs, trim blank edges; returns
the cleaned markdown and the removed-section labels. -/
def clean_markdown_content (markdown : Str) : Str × List Str :=
  let (cleaned, removed) := cleanMdLoop false (pySplitlines markdown)
  (joinLines (trimBlankLines (collapseBlanks 0 cleaned)), removed)

/-! ## `Summarizer/article_fetcher.py` -/

/-- The `strategy` literal of `FetchOutcome`. -/
inductive FetchStrategy
  | httpx
  | httpxCache
  | urlToMd
  | urlToMdCache
  | jina
  deriving Repr, DecidableEq

/-- The `format` literal of `FetchOutcome`. -/
inductive FetchFormat
  | html
  | markdown
  deriving Repr, DecidableEq

/-- `FetchOutcome` dataclass from `article_fetcher.py`. -/
structure FetchOutcome where
  content : Str
  strategy : FetchStrategy
  format : FetchFormat
  duration : ℚ
  removed_sections : List Str
  deriving Repr, DecidableEq

/-- `FetchConfig` dataclass from `article_fetcher.py` (defaults
`HTTP_TIMEOUT = 10.0`, `MAX_RETRIES = 2` from `config.py`). -/
structure FetchConfig where
  timeout : ℚ := 10
  max_retries : Nat := 2
  allow_cache : Bool := true

/-- Result of one `httpx.get`: a response (`raise_for_status` fires when the
status is at least 400) or a transport-level `httpx.HTTPError`. -/
inductive HttpResp
  | resp (status : Nat) (contentType : Str) (body : Str)
  | netErr (msg : Str)

/-- Oracles for the external effects of a `fetch_article` call: the `k`-th
`httpx.get`, the `k`-th `fetch_with_urltomd`, the `k`-th `fetch_with_jina`
(each error carrying the message the corresponding exception class formats),
and the `k`-th `perf_counter` span. -/
structure FetchEnv where
  http : Nat → HttpResp
  urltomd : Nat → Except Str Str
  jina : Nat → Except Str Str
  elapsed : Nat → ℚ

/-- The module-level caches `_CACHE_HTML` and `_CACHE_MARKDOWN`. -/
structure FetchState where
  cacheHtml : List (Str × Str)
  cacheMd : List (Str × Str)

/-- Network/subprocess interactions performed during a fetch.  The
`headlessRender` and `sleep` constructors give the vocabulary for effects the
specification attributes to the orchestrator; the embedding of
`fetch_article` below never emits them because its source contains no
headless-browser call and no sleep. -/
inductive FetchEvent
  | httpGet (url : Str)
  | urlToMdCall (url : Str)
  | jinaCall (url : Str)
  | headlessRender (url : Str)
  | sleep (seconds : Nat)
  deriving Repr, DecidableEq

/-- Mutable context threaded through a fetch: caches, per-oracle call
counters, and the event trace. -/
structure FetchCtx where
  state : FetchState
  httpK : Nat
  mdK : Nat
  jinaK : Nat
  elapsedK : Nat
  trace : List FetchEvent

/-- Dictionary lookup in a cache namespace. -/
def cacheLookup (c : List (Str × Str)) (url : Str) : Option Str :=
  c.lookup url

/-- Dictionary store `cache[url] = content`. -/
def cacheInsert (url content : Str) (c : List (Str × Str)) : List (Str × Str) :=
  (url, content) :: c

/-- `str(UrlToMdError(url, msg))`. -/
def urlToMdErrStr (url msg : Str) : Str :=
  "url-to-md failed for ".toList ++ url ++ ": ".toList ++ msg

/-- `str(JinaFetchError(url, msg))`. -/
def jinaErrStr (url msg : Str) : Str :=
  "Jina AI failed for ".toList ++ url ++ ": ".toList ++ msg

/-- `str(FetchError(url, msg))`. -/
def fetchErrStr (url msg : Str) : Str :=
  "Failed to fetch ".toList ++ url ++ ": ".toList ++ msg

/-- The message `_fetch_markdown_fallback` raises when both providers fail. -/
def fallbackFailedMsg (url mdMsg jinaMsg : Str) : Str :=
  "fallback failed (url-to-md: ".toList ++ urlToMdErrStr url mdMsg ++
  "; jina: ".toList ++ jinaErrStr url jinaMsg ++ ")".toList

/-- Perform one `httpx.get(url, ...)`: consult the oracle, bump the counter,
record the event. -/
def doHttpGet (url : Str) (env : FetchEnv) (ctx : FetchCtx) : HttpResp × FetchCtx :=
  (env.http ctx.httpK,
   { ctx with httpK := ctx.httpK + 1, trace := ctx.trace ++ [.httpGet url] })

/-- Build the markdown-fallback success outcome: clean the markdown, cache it
when allowed, measure the elapsed span. -/
def fallbackFinish (url : Str) (allowCache : Bool) (strategy : FetchStrategy)
    (markdown : Str) (env : FetchEnv) (ctx : FetchCtx) :
    Except Str FetchOutcome × FetchCtx :=
  let cr := clean_markdown_content markdown
  let dur := env.elapsed ctx.elapsedK
  let st := if allowCache then
      { ctx.state with cacheMd := cacheInsert url cr.1 ctx.state.cacheMd }
    else ctx.state
  (.ok ⟨cr.1, strategy, .markdown, dur, cr.2⟩,
   { ctx with elapsedK := ctx.elapsedK + 1, state := st })

/-- `_fetch_markdown_fallback` from `article_fetcher.py`: markdown-cache
check, then url-to-md, then Jina; when both providers fail, raise a
`FetchError` whose message embeds both provider errors. -/
def _fetch_markdown_fallback (url : Str) (allowCache : Bool) (env : FetchEnv)
    (ctx : FetchCtx) : Except Str FetchOutcome × FetchCtx :=
  match (if allowCache then cacheLookup ctx.state.cacheMd url else none) with
  | some cleaned => (.ok ⟨cleaned, .urlToMdCache, .markdown, 0, []⟩, ctx)
  | none =>
    let ctx1 := { ctx with mdK := ctx.mdK + 1, trace := ctx.trace ++ [.urlToMdCall url] }
    match env.urltomd ctx.mdK with
    | .ok markdown => fallbackFinish url allowCache .urlToMd markdown env ctx1
    | .error m1 =>
      let ctx2 := { ctx1 with jinaK := ctx1.jinaK + 1, trace := ctx1.trace ++ [.jinaCall url] }
      match env.jina ctx1.jinaK with
      | .ok markdown => fallbackFinish url allowCache .jina markdown env ctx2
      | .error m2 => (.error (fetchErrStr url (fallbackFailedMsg url m1 m2)), ctx2)

/-- `binary_types` from `fetch_article`. -/
def binaryTypes : List Str :=
  ["pdf".toList, "epub".toList, "zip".toList, "octet-stream".toList]

/-- `any(binary_type in content_type for binary_type in binary_types)` on the
lowercased `content-type` header. -/
def isBinaryContentType (ct : Str) : Bool :=
  binaryTypes.any (fun b => containsSub b (pyLower ct))

/-- The deterministic URL rewrite `fetch_article` tries for binary content:
strip `.pdf` (when the lowercased URL ends in `.pdf` or contains `.pdf?`) or
a trailing `/epub`. -/
def htmlSiblingUrl (url : Str) : Option Str :=
  if endsWith ".pdf".toList (pyLower url) || containsSub ".pdf?".toList (pyLower url) then
    some (pyReplace ".pdf".toList [] (pyReplace ".pdf?".toList "?".toList url))
  else if endsWith "/epub".toList url then
    some (url.take (url.length - 5))
  else none

/-- `exc.response.text[:200].replace("\n", " ")`. -/
def httpErrBody (body : Str) : Str :=
  (body.take 200).map (fun c => if c = '\n' then ' ' else c)

/-- `str(FetchError(url, f"HTTP {status}: {body}"))`. -/
def httpStatusErrStr (url : Str) (status : Nat) (body : Str) : Str :=
  fetchErrStr url ("HTTP ".toList ++ natToStr status ++ ": ".toList ++ httpErrBody body)

/-- `f"{last_error}"` in the exhaustion message (`None` when no attempt
recorded an error). -/
def renderLastError : Option Str → Str
  | none => "None".toList
  | some s => s

/-- `str(FetchError(url, f"exhausted retries (last error: {last_error})"))`. -/
def exhaustedMsg (url : Str) (lastErr : Option Str) : Str :=
  fetchErrStr url ("exhausted retries (last error: ".toList ++
    renderLastError lastErr ++ ")".toList)

/-- The retry loop of `fetch_article` (`for _ in range(cfg.max_retries + 1)`),
with the remaining iteration count as fuel.  There is no sleep between
iterations.  A 2xx/3xx response with non-binary content type returns and
caches; binary content tries the HTML-sibling rewrite once and otherwise the
markdown fallback, whose failure breaks out of the loop; statuses 403, 429
and 503 try the markdown fallback and keep retrying when it fails; all other
failures record `last_error` and retry. -/
def fetchLoop (url : Str) (cfg : FetchConfig) (env : FetchEnv) :
    Nat → Option Str → FetchCtx → Except Str FetchOutcome × FetchCtx
  | 0, lastErr, ctx => (.error (exhaustedMsg url lastErr), ctx)
  | n + 1, lastErr, ctx =>
    match doHttpGet url env ctx with
    | (.netErr m, ctx) => fetchLoop url cfg env n (some m) ctx
    | (.resp status ct body, ctx) =>
      if 400 ≤ status then
        if status = 403 ∨ status = 429 ∨ status = 503 then
          match _fetch_markdown_fallback url cfg.allow_cache env ctx with
          | (.ok outcome, ctx) => (.ok outcome, ctx)
          | (.error e, ctx) => fetchLoop url cfg env n (some e) ctx
        else
          fetchLoop url cfg env n (some (httpStatusErrStr url status body)) ctx
      else if isBinaryContentType ct then
        let afterSibling : Option FetchOutcome × FetchCtx :=
          match htmlSiblingUrl url with
          | some hurl =>
            match doHttpGet hurl env ctx with
            | (.resp s2 ct2 body2, ctx) =>
              if s2 < 400 ∧ containsSub "html".toList (pyLower ct2) then
                let dur := env.elapsed ctx.elapsedK
                let st := if cfg.allow_cache then
                    { ctx.state with cacheHtml := cacheInsert url body2 ctx.state.cacheHtml }
                  else ctx.state
                (some ⟨body2, .httpx, .html, dur, []⟩,
                 { ctx with elapsedK := ctx.elapsedK + 1, state := st })
              else (none, ctx)
            | (.netErr _, ctx) => (none, ctx)
          | none => (none, ctx)
        match afterSibling with
        | (some outcome, ctx) => (.ok outcome, ctx)
        | (none, ctx) =>
          match _fetch_markdown_fallback url cfg.allow_cache env ctx with
          | (.ok outcome, ctx) => (.ok outcome, ctx)
          | (.error e, ctx) => (.error (exhaustedMsg url (some e)), ctx)
      else
        let dur := env.elapsed ctx.elapsedK
        let st := if cfg.allow_cache then
            { ctx.state with cacheHtml := cacheInsert url body ctx.state.cacheHtml }
          else ctx.state
        (.ok ⟨body, .httpx, .html, dur, []⟩,
         { ctx with elapsedK := ctx.elapsedK + 1, state := st })

/-- Fresh per-call context over the process-wide caches. -/
def initCtx (st : FetchState) : FetchCtx := ⟨st, 0, 0, 0, 0, []⟩

/-- `fetch_article` from `article_fetcher.py`: when caching is allowed, a hit
in the HTML namespace (checked first) or the markdown namespace returns
immediately with the cache-tagged strategy, duration 0 and no network
activity; otherwise the retry loop runs with `max_retries + 1` iterations.
Per-domain header overrides only alter the outgoing request headers and are
absorbed into the `http` oracle. -/
def fetch_article (url : Str) (cfg : FetchConfig) (env : FetchEnv)
    (st : FetchState) : Except Str FetchOutcome × FetchCtx :=
  let ctx := initCtx st
  if cfg.allow_cache then
    match cacheLookup st.cacheHtml url with
    | some c => (.ok ⟨c, .httpxCache, .html, 0, []⟩, ctx)
    | none =>
      match cacheLookup st.cacheMd url with
      | some c => (.ok ⟨c, .urlToMdCache, .markdown, 0, []⟩, ctx)
      | none => fetchLoop url cfg env (cfg.max_retries + 1) none ctx
  else fetchLoop url cfg env (cfg.max_retries + 1) none ctx

/-! ## Concrete oracles and inputs used by the closed theorems -/

/-- A raw LLM output whose text parse yields four labelled bullets. -/
def goodBulletRaw : Str :=
  ("- **KEY FINDING**: a\n- **TACTICAL WIN**: b\n" ++
   "- **MARKET SIGNAL**: c\n- **CONCERN**: d").toList

/-- Oracle answering every GET with HTTP 403 while url-to-md succeeds. -/
def cexEnv403 : FetchEnv :=
  { http := fun _ => .resp 403 "text/html".toList "Forbidden".toList,
    urltomd := fun _ => .ok "# Doc".toList,
    jina := fun _ => .error "down".toList,
    elapsed := fun _ => 1 }

/-- Oracle failing the first GET with a transport error and answering the
second with HTTP 200 HTML. -/
def cexEnvRetry : FetchEnv :=
  { http := fun k => if k = 0 then .netErr "boom".toList
      else .resp 200 "text/html".toList "<html>ok</html>".toList,
    urltomd := fun _ => .error "na".toList,
    jina := fun _ => .error "na".toList,
    elapsed := fun _ => 1 }

/-- Whether a fetch event is a backoff sleep. -/
def isSleepEvent : FetchEvent → Bool
  | .sleep _ => true
  | _ => false

/-- Whether a fetch event is a headless-browser invocation. -/
def isHeadlessEvent : FetchEvent → Bool
  | .headlessRender _ => true
  | _ => false

/-! ## Shared helper lemmas -/

/-- Substring containment follows from an explicit decomposition. -/
theorem containsSub_of_parts (a x y m : Str) (h : x ++ a ++ y = m) :
    containsSub a m = true := by
  simp only [containsSub, decide_eq_true_eq]
  exact ⟨x, y, h⟩

/-- Looking up a key just stored in a cache namespace returns the stored
content. -/
theorem cacheLookup_insert_self (url v : Str) (c : List (Str × Str)) :
    cacheLookup (cacheInsert url v c) url = some v := by
  simp [cacheLookup, cacheInsert, List.lookup]

/-! ## C10: empty or whitespace-only input -/

/-- C10: for every input that is empty or consists only of whitespace,
`check_content_quality` returns the failure verdict "empty content" (the
emptiness test precedes every indicator rule of the classifier). -/
theorem check_content_quality_empty (content : Str) (h : pyStrip content = []) :
    check_content_quality content = ⟨true, "empty content"⟩ := by
  unfold check_content_quality
  rw [if_pos (Or.inr h)]

/-- Witness for `check_content_quality_empty` at the whitespace-only input
`"  \t "`. -/
theorem check_content_quality_empty_witness :
    check_content_quality "  \t ".toList = ⟨true, "empty content"⟩ :=
  check_content_quality_empty _ (by decide)

/-! ## C5: classifier rule priority and thresholds -/

/-- C5: `check_content_quality` applies its rules in first-match priority
order (bot-challenge, then paywall, then UI-chrome, then references-only);
each indicator rule fires exactly at threshold 2, the references-only rule
fires (when reached) exactly when there are more than 10 non-empty lines of
which more than 70% match the numbered-citation pattern, and in particular a
text with at least 2 bot-challenge indicators and at least 2 paywall
indicators receives the bot-challenge verdict. -/
theorem check_content_quality_priority (c : Str)
    (hs : pyStrip c ≠ []) (hne : nonEmptyLines c ≠ []) :
    (2 ≤ cloudflareCount c →
      check_content_quality c = ⟨true, "Cloudflare protection blocked content access"⟩) ∧
    (cloudflareCount c < 2 → 2 ≤ paywallCount c →
      check_content_quality c = ⟨true, "content behind paywall"⟩) ∧
    (cloudflareCount c < 2 → paywallCount c < 2 → 2 ≤ uiCount c →
      check_content_quality c = ⟨true, "content appears to be UI elements"⟩) ∧
    (cloudflareCount c < 2 → paywallCount c < 2 → uiCount c < 2 →
      (check_content_quality c = ⟨true, "content appears to be references section only"⟩ ↔
        (10 < (nonEmptyLines c).length ∧
          7 * (nonEmptyLines c).length < 10 * referenceLineCount c))) ∧
    (2 ≤ cloudflareCount c → 2 ≤ paywallCount c →
      check_content_quality c = ⟨true, "Cloudflare protection blocked content access"⟩) := by
  have hempty : ¬(c = [] ∨ pyStrip c = []) := by
    rintro (rfl | h)
    · exact hs rfl
    · exact hs h
  refine ⟨fun hcf => ?_, fun hcf hpw => ?_, fun hcf hpw hui => ?_,
    fun hcf hpw hui => ?_, fun hcf hpw => ?_⟩
  · unfold check_content_quality
    rw [if_neg hempty, if_neg hne, if_pos hcf]
  · unfold check_content_quality
    rw [if_neg hempty, if_neg hne, if_neg (by omega), if_pos hpw]
  · unfold check_content_quality
    rw [if_neg hempty, if_neg hne, if_neg (by omega), if_neg (by omega), if_pos hui]
  · unfold check_content_quality
    rw [if_neg hempty, if_neg hne, if_neg (by omega), if_neg (by omega), if_neg (by omega)]
    by_cases hrc : 10 < (nonEmptyLines c).length ∧
        7 * (nonEmptyLines c).length < 10 * referenceLineCount c
    · rw [if_pos hrc]
      exact ⟨fun _ => hrc, fun _ => rfl⟩
    · rw [if_neg hrc]
      refine ⟨fun h => absurd h ?_, fun h => absurd h hrc⟩
      intro h
      exact Bool.noConfusion (congrArg QualityResult.is_failure h)
  · unfold check_content_quality
    rw [if_neg hempty, if_neg hne, if_pos hcf]

set_option maxRecDepth 4000 in
/-- Witness for `check_content_quality_priority`: a text carrying two
bot-challenge indicators and two paywall indicators is classified as
bot-challenge. -/
theorem check_content_quality_priority_witness :
    check_content_quality
      "Just a moment... checking your browser. Get Access or Purchase this article.".toList =
      ⟨true, "Cloudflare protection blocked content access"⟩ :=
  (check_content_quality_priority _ (by decide) (by decide)).2.2.2.2
    (by decide) (by decide)

/-! ## C3: validator acceptance condition -/

/-- C3: the validator accepts exactly when there are 3-4 bullets and every
required label occurs as a substring of the newline-joined bullet text
(label order in the text is irrelevant to substring containment), or the
stripped raw output has between 100 and 2000 characters. -/
theorem validate_bullet_structure_iff (bullets : List Str) (raw : Str) :
    (validate_bullet_structure bullets raw).1 = true ↔
      ((3 ≤ bullets.length ∧ bullets.length ≤ 4 ∧
        ∀ label ∈ requiredLabels, containsSub label (joinLines bullets) = true) ∨
       (100 ≤ (pyStrip raw).length ∧ (pyStrip raw).length ≤ 2000)) := by
  have hmiss : missingLabels bullets = [] ↔
      ∀ label ∈ requiredLabels, containsSub label (joinLines bullets) = true := by
    simp [missingLabels, List.filter_eq_nil_iff]
  unfold validate_bullet_structure
  by_cases h1 : 3 ≤ bullets.length ∧ bullets.length ≤ 4 ∧ missingLabels bullets = []
  · rw [if_pos h1]
    simp only [true_iff]
    exact Or.inl ⟨h1.1, h1.2.1, hmiss.mp h1.2.2⟩
  · rw [if_neg h1]
    by_cases h2 : 100 ≤ (pyStrip raw).length ∧ (pyStrip raw).length ≤ 2000
    · rw [if_pos h2]
      simp only [true_iff]
      exact Or.inr h2
    · rw [if_neg h2]
      constructor
      · intro hcontra
        exfalso
        split at hcontra <;> (try split at hcontra) <;> simp_all
      · rintro (⟨ha, hb, hc⟩ | hpr)
        · exact absurd ⟨ha, hb, hmiss.mpr hc⟩ h1
        · exact absurd hpr h2

/-! ## C7: both markdown providers fail -/

/-- C7: when url-to-md and Jina both fail for a URL, `_fetch_markdown_fallback`
raises a `FetchError` whose message contains both providers' failure texts. -/
theorem fallback_both_fail_message (url : Str) (allowCache : Bool)
    (env : FetchEnv) (ctx : FetchCtx) (m1 m2 : Str)
    (hcache : allowCache = true → cacheLookup ctx.state.cacheMd url = none)
    (hmd : env.urltomd ctx.mdK = .error m1)
    (hjina : env.jina ctx.jinaK = .error m2) :
    (_fetch_markdown_fallback url allowCache env ctx).1 =
      .error (fetchErrStr url (fallbackFailedMsg url m1 m2)) ∧
    containsSub (urlToMdErrStr url m1)
      (fetchErrStr url (fallbackFailedMsg url m1 m2)) = true ∧
    containsSub (jinaErrStr url m2)
      (fetchErrStr url (fallbackFailedMsg url m1 m2)) = true := by
  have hmiss : (if allowCache then cacheLookup ctx.state.cacheMd url else none) = none := by
    cases allowCache
    · rfl
    · exact hcache rfl
  refine ⟨?_, ?_, ?_⟩
  · unfold _fetch_markdown_fallback
    rw [hmiss]
    simp only [hmd, hjina]
  · refine containsSub_of_parts _
      ("Failed to fetch ".toList ++ url ++ ": ".toList ++ "fallback failed (url-to-md: ".toList)
      ("; jina: ".toList ++ jinaErrStr url m2 ++ ")".toList) _ ?_
    simp [fetchErrStr, fallbackFailedMsg]
  · refine containsSub_of_parts _
      ("Failed to fetch ".toList ++ url ++ ": ".toList ++ "fallback failed (url-to-md: ".toList ++
        urlToMdErrStr url m1 ++ "; jina: ".toList)
      (")".toList) _ ?_
    simp [fetchErrStr, fallbackFailedMsg]

set_option maxRecDepth 4000 in
/-- Witness for `fallback_both_fail_message` at a concrete URL and provider
errors. -/
theorem fallback_both_fail_message_witness :
    (_fetch_markdown_fallback "https://b.example".toList true
        ⟨fun _ => .netErr [], fun _ => .error "blocked".toList,
         fun _ => .error "down".toList, fun _ => 1⟩
        (initCtx ⟨[], []⟩)).1 =
      .error (fetchErrStr "https://b.example".toList
        (fallbackFailedMsg "https://b.example".toList "blocked".toList "down".toList)) :=
  (fallback_both_fail_message "https://b.example".toList true
    ⟨fun _ => .netErr [], fun _ => .error "blocked".toList,
     fun _ => .error "down".toList, fun _ => 1⟩
    (initCtx ⟨[], []⟩)
    "blocked".toList "down".toList (fun _ => rfl) rfl rfl).1

/-! ## C6: primary/fallback extractor selection -/

/-- C6: `extract_content` uses the primary (trafilatura) extractor's cleaned
output exactly when that output exists, has word count at least 100, and
passes the quality classifier; in every other case (None result, short or
low-quality output, or a raised exception) it uses the single
readability-based fallback, whose invocation never occurs more than once. -/
theorem extract_content_primary_iff (env : ExtractEnv) (html : Str) :
    ((extract_content env html).2 = [ExtractorCall.trafilatura] ↔
      ∃ c, env.trafilatura (sanitize_html html) = .ok (some c) ∧
        100 ≤ pyWordCount c ∧ is_low_quality c = false) ∧
    (∀ c, env.trafilatura (sanitize_html html) = .ok (some c) →
      100 ≤ pyWordCount c → is_low_quality c = false →
      (extract_content env html).1 = clean_extracted_text c) ∧
    ((extract_content env html).2 = [ExtractorCall.trafilatura] ∨
      ((extract_content env html).2 = [ExtractorCall.trafilatura, ExtractorCall.readability] ∧
        (extract_content env html).1 =
          clean_extracted_text (env.readabilityMd (sanitize_html html)))) ∧
    (extract_content env html).2.count ExtractorCall.readability ≤ 1 := by
  have hcount : List.count ExtractorCall.readability
      [ExtractorCall.trafilatura, ExtractorCall.readability] ≤ 1 := by decide
  have hcount1 : List.count ExtractorCall.readability [ExtractorCall.trafilatura] ≤ 1 := by
    decide
  have hne2 : ¬([ExtractorCall.trafilatura, ExtractorCall.readability] =
      [ExtractorCall.trafilatura]) := by decide
  rcases htr : env.trafilatura (sanitize_html html) with e | oc
  · have hval : extract_content env html =
        (clean_extracted_text (env.readabilityMd (sanitize_html html)),
         [ExtractorCall.trafilatura, ExtractorCall.readability]) := by
      simp only [extract_content, htr]
    rw [hval]
    refine ⟨⟨fun h => absurd h hne2, ?_⟩, ?_, Or.inr ⟨rfl, rfl⟩, hcount⟩
    · rintro ⟨c', hc', _, _⟩
      simp at hc'
    · intro c' hc' _ _
      simp at hc'
  · rcases oc with _ | c
    · have hval : extract_content env html =
          (clean_extracted_text (env.readabilityMd (sanitize_html html)),
           [ExtractorCall.trafilatura, ExtractorCall.readability]) := by
        simp only [extract_content, htr]
      rw [hval]
      refine ⟨⟨fun h => absurd h hne2, ?_⟩, ?_, Or.inr ⟨rfl, rfl⟩, hcount⟩
      · rintro ⟨c', hc', _, _⟩
        simp at hc'
      · intro c' hc' _ _
        simp at hc'
    · by_cases hacc : 100 ≤ pyWordCount c ∧ is_low_quality c = false
      · have hval : extract_content env html =
            (clean_extracted_text c, [ExtractorCall.trafilatura]) := by
          simp only [extract_content, htr, if_pos hacc]
        rw [hval]
        refine ⟨⟨fun _ => ⟨c, rfl, hacc.1, hacc.2⟩, fun _ => rfl⟩, ?_, Or.inl rfl, hcount1⟩
        intro c' hc' _ _
        obtain rfl : c = c' := by
          injection hc' with h
          injection h
        rfl
      · have hval : extract_content env html =
            (clean_extracted_text (env.readabilityMd (sanitize_html html)),
             [ExtractorCall.trafilatura, ExtractorCall.readability]) := by
          simp only [extract_content, htr, if_neg hacc]
        rw [hval]
        refine ⟨⟨fun h => absurd h hne2, ?_⟩, ?_, Or.inr ⟨rfl, rfl⟩, hcount⟩
        · rintro ⟨c', hc', h1, h2⟩
          obtain rfl : c = c' := by
            injection hc' with h
            injection h
          exact absurd ⟨h1, h2⟩ hacc
        · intro c' hc' h1 h2
          obtain rfl : c = c' := by
            injection hc' with h
            injection h
          exact absurd ⟨h1, h2⟩ hacc

set_option maxRecDepth 8000 in
/-- Witness for `extract_content_primary_iff`: a 100-word trafilatura output
that passes the classifier is returned cleaned. -/
theorem extract_content_primary_iff_witness :
    (extract_content
      ⟨fun _ => .ok (some (joinLines (List.replicate 100 "a".toList))),
       fun _ => []⟩ []).1 =
      clean_extracted_text (joinLines (List.replicate 100 "a".toList)) :=
  (extract_content_primary_iff
      ⟨fun _ => .ok (some (joinLines (List.replicate 100 "a".toList))),
       fun _ => []⟩ []).2.1
    (joinLines (List.replicate 100 "a".toList)) rfl (by decide) (by decide)

/-! ## C9: cruft stripping leaves no matching lines -/

/-- Every line produced by the splitlines loop is free of line-break
characters (provided the accumulated current line is). -/
theorem splitlinesAux_no_break (s : Str) :
    ∀ (afterCr : Bool) (cur : Str), (∀ c ∈ cur, isLineBreakChar c = false) →
      ∀ l ∈ splitlinesAux afterCr cur s, ∀ c ∈ l, isLineBreakChar c = false := by
  induction s with
  | nil =>
    intro afterCr cur hcur l hl
    unfold splitlinesAux at hl
    split at hl
    · simp at hl
    · simp at hl
      subst hl
      exact hcur
  | cons c rest ih =>
    intro afterCr cur hcur l hl
    simp only [splitlinesAux] at hl
    by_cases hn : c = '\n'
    · rw [if_pos hn] at hl
      by_cases hcr : afterCr
      · rw [if_pos hcr] at hl
        exact ih false cur hcur l hl
      · rw [if_neg hcr] at hl
        rcases List.mem_cons.mp hl with rfl | hl
        · exact hcur
        · exact ih false [] (by simp) l hl
    · rw [if_neg hn] at hl
      by_cases hb : isLineBreakChar c = true
      · rw [if_pos hb] at hl
        rcases List.mem_cons.mp hl with rfl | hl
        · exact hcur
        · exact ih _ [] (by simp) l hl
      · rw [if_neg hb] at hl
        refine ih false (cur ++ [c]) ?_ l hl
        intro x hx
        rcases List.mem_append.mp hx with hx | hx
        · exact hcur x hx
        · simp at hx
          subst hx
          exact Bool.eq_false_iff.mpr hb

/-- Splitting `line ++ "\n" ++ rest` where `line` has no break characters
peels off `cur ++ line` as the first line. -/
theorem splitlinesAux_append_newline (l : Str) :
    ∀ (cur r : Str), (∀ c ∈ l, isLineBreakChar c = false) →
      splitlinesAux false cur (l ++ '\n' :: r) =
        (cur ++ l) :: splitlinesAux false [] r := by
  induction l with
  | nil =>
    intro cur r _
    simp [splitlinesAux]
  | cons c l ih =>
    intro cur r h
    have hc : isLineBreakChar c = false := h c (by simp)
    have hn : ¬(c = '\n') := by
      intro hcn
      subst hcn
      simp [isLineBreakChar] at hc
    simp only [List.cons_append, splitlinesAux, if_neg hn, hc, List.append_eq]
    rw [if_neg (by simp [hc])]
    rw [ih (cur ++ [c]) r (fun x hx => h x (by simp [hx]))]
    simp

/-- Splitting a break-free string yields that string as the single line (or
nothing when it is empty together with the accumulator). -/
theorem splitlinesAux_single (l : Str) :
    ∀ cur : Str, (∀ c ∈ l, isLineBreakChar c = false) →
      splitlinesAux false cur l = if cur ++ l = [] then [] else [cur ++ l] := by
  induction l with
  | nil =>
    intro cur _
    simp [splitlinesAux]
  | cons c l ih =>
    intro cur h
    have hc : isLineBreakChar c = false := h c (by simp)
    have hn : ¬(c = '\n') := by
      intro hcn
      subst hcn
      simp [isLineBreakChar] at hc
    simp only [splitlinesAux, if_neg hn]
    rw [if_neg (by simp [hc])]
    rw [ih (cur ++ [c]) (fun x hx => h x (by simp [hx]))]
    have hne1 : ¬((cur ++ [c]) ++ l = []) := by simp
    have hne2 : ¬(cur ++ c :: l = []) := by simp
    rw [if_neg hne1, if_neg hne2]
    simp

/-- Every line of `"\n".join(ls)` is one of the joined pieces, provided the
pieces contain no line-break characters (a trailing empty piece may be
absorbed, so this is containment rather than equality). -/
theorem mem_pySplitlines_joinLines :
    ∀ ls : List Str, (∀ l ∈ ls, ∀ c ∈ l, isLineBreakChar c = false) →
      ∀ x ∈ pySplitlines (joinLines ls), x ∈ ls := by
  intro ls
  induction ls with
  | nil =>
    intro _ x hx
    simp [joinLines, pySplitlines, splitlinesAux] at hx
  | cons l ls ih =>
    intro hls x hx
    cases ls with
    | nil =>
      unfold pySplitlines at hx
      have hjoin : joinLines [l] = l := rfl
      rw [hjoin, splitlinesAux_single l [] (hls l (by simp))] at hx
      split at hx
      · simp at hx
      · simp at hx
        simp [hx]
    | cons l2 ls2 =>
      unfold pySplitlines at hx
      have hjoin : joinLines (l :: l2 :: ls2) = l ++ '\n' :: joinLines (l2 :: ls2) := rfl
      rw [hjoin, splitlinesAux_append_newline l [] _ (hls l (by simp))] at hx
      rcases List.mem_cons.mp hx with hx | hx
      · simp at hx
        simp [hx]
      · have := ih (fun p hp => hls p (by simp [hp])) x hx
        simp [this]

/-- C9: no line of `strip_cruft`'s output, once stripped of surrounding
whitespace, matches the Google-Scholar link pattern, the angle-bracketed URL
pattern, the Google-Scholar citation-line pattern, or the bare-DOI pattern. -/
theorem strip_cruft_no_cruft_lines (markdown : Str) :
    ∀ l ∈ pySplitlines (strip_cruft markdown),
      gsLinkPatternMatch (pyStrip l) = false ∧
      angleUrlPatternMatch (pyStrip l) = false ∧
      gsRefPatternMatch (pyStrip l) = false ∧
      doiPatternMatch (pyStrip l) = false := by
  intro l hl
  unfold strip_cruft at hl
  have hknb : ∀ x ∈ (pySplitlines markdown).filter
      (fun line => !(_CRUFT_PATTERNS.any (fun p => p (pyStrip line)))),
      ∀ c ∈ x, isLineBreakChar c = false := by
    intro x hx
    exact splitlinesAux_no_break markdown false [] (by simp) x (List.mem_filter.mp hx).1
  have hmem := mem_pySplitlines_joinLines _ hknb l hl
  have hpred := (List.mem_filter.mp hmem).2
  simp only [_CRUFT_PATTERNS, List.any_cons, List.any_nil, Bool.not_eq_true',
    Bool.or_eq_false_iff] at hpred
  exact ⟨hpred.1, hpred.2.1, hpred.2.2.1, hpred.2.2.2.1⟩

/-- Witness for `strip_cruft_no_cruft_lines`: the surviving line of a
markdown body containing a DOI line and an angle-bracketed URL. -/
theorem strip_cruft_no_cruft_lines_witness :
    gsLinkPatternMatch (pyStrip "keep me".toList) = false ∧
    angleUrlPatternMatch (pyStrip "keep me".toList) = false ∧
    gsRefPatternMatch (pyStrip "keep me".toList) = false ∧
    doiPatternMatch (pyStrip "keep me".toList) = false :=
  strip_cruft_no_cruft_lines
    "keep me\nhttps://doi.org/10.1/x\n<https://e.example/p>".toList
    "keep me".toList (by decide)

/-! ## C2: the validation/retry loop -/

set_option maxRecDepth 8000 in
/-- C2 counterexample: a backend whose first output is the empty string (which
fails validation: 0 characters of prose, no bullets) and whose second output
passes validation is rejected immediately with the no-bullets error; the loop
never reaches the second attempt, contradicting the claim that such a backend
is accepted on attempt 2. -/
theorem summarize_retry_counterexample :
    (validate_bullet_structure (parse_bullets_text []) []).1 = false ∧
    (validate_bullet_structure (parse_bullets_text goodBulletRaw) goodBulletRaw).1 = true ∧
    summarize_article_attempts "custom".toList
      ⟨[], parse_bullets_text []⟩ ⟨goodBulletRaw, parse_bullets_text goodBulletRaw⟩ =
      .error (noBulletsMsg "custom".toList) :=
  ⟨by decide, by decide, rfl⟩

/-- C2 (amended): for attempts that each parse to at least one bullet, a
first attempt failing validation followed by a second attempt passing it is
accepted with the second attempt's bullets (the first attempt's output is
never returned); when the second attempt also fails validation, the loop
raises `SummarizerError` whose message contains the last validation error. -/
theorem summarize_retry_behavior (backendUsed : Str) (a1 a2 : SummAttempt)
    (h1 : a1.bullets ≠ []) (h2 : a2.bullets ≠ [])
    (hv1 : (validate_bullet_structure a1.bullets a1.raw).1 = false) :
    ((validate_bullet_structure a2.bullets a2.raw).1 = true →
      summarize_article_attempts backendUsed a1 a2 = .ok a2.bullets) ∧
    ((validate_bullet_structure a2.bullets a2.raw).1 = false →
      summarize_article_attempts backendUsed a1 a2 =
        .error (validationFailedMsg (validate_bullet_structure a2.bullets a2.raw).2) ∧
      containsSub (validate_bullet_structure a2.bullets a2.raw).2
        (validationFailedMsg (validate_bullet_structure a2.bullets a2.raw).2) = true) := by
  unfold summarize_article_attempts
  rw [if_neg h1, if_neg (by simp [hv1]), if_neg h2]
  constructor
  · intro hv2
    rw [if_pos hv2]
  · intro hv2
    rw [if_neg (by simp [hv2])]
    refine ⟨rfl, containsSub_of_parts _
      "Summary validation failed after 2 attempts: ".toList [] _ ?_⟩
    simp [validationFailedMsg]

set_option maxRecDepth 8000 in
/-- Witness for `summarize_retry_behavior`: an invalid single-bullet first
attempt followed by a valid four-bullet second attempt is accepted with the
second attempt's bullets. -/
theorem summarize_retry_behavior_witness :
    summarize_article_attempts "custom".toList ⟨"xy".toList, ["a".toList]⟩
      ⟨goodBulletRaw, parse_bullets_text goodBulletRaw⟩ =
      .ok (parse_bullets_text goodBulletRaw) :=
  (summarize_retry_behavior "custom".toList ⟨"xy".toList, ["a".toList]⟩
      ⟨goodBulletRaw, parse_bullets_text goodBulletRaw⟩
      (by decide) (by decide) (by decide)).1 (by decide)

/-! ## C1: behaviour on HTTP 403 -/

/-- C1 counterexample: a GET returning 403 makes `fetch_article` perform
exactly one plain GET followed by one url-to-md fallback call — the event
trace contains no headless-browser invocation at all (the source has no
headless-render path and no domain allow-list), contradicting the claim that
the headless renderer is invoked exactly once. -/
theorem fetch403_counterexample :
    (fetch_article "https://x.example".toList ⟨10, 2, false⟩ cexEnv403 ⟨[], []⟩).2.trace =
      [FetchEvent.httpGet "https://x.example".toList,
       FetchEvent.urlToMdCall "https://x.example".toList] ∧
    ((fetch_article "https://x.example".toList ⟨10, 2, false⟩ cexEnv403 ⟨[], []⟩).2.trace.filter
        isHeadlessEvent) = [] ∧
    ¬((fetch_article "https://x.example".toList ⟨10, 2, false⟩ cexEnv403 ⟨[], []⟩).2.trace.countP
        isHeadlessEvent = 1) :=
  ⟨rfl, rfl, by decide⟩

/-- C1 (amended): when the direct GET for a URL returns status 403 and the
url-to-md provider succeeds, `fetch_article` escalates to the remote
markdown-conversion fallback — not to any headless renderer — invoking it
exactly once and making no further plain-HTTP attempt: the whole trace is one
GET followed by one url-to-md call. -/
theorem fetch403_markdown_escalation (url : Str) (cfg : FetchConfig) (env : FetchEnv)
    (st : FetchState) (ct body md : Str)
    (hcache : cfg.allow_cache = true →
      cacheLookup st.cacheHtml url = none ∧ cacheLookup st.cacheMd url = none)
    (hhttp : env.http 0 = .resp 403 ct body)
    (hmd : env.urltomd 0 = .ok md) :
    (fetch_article url cfg env st).1 =
      .ok ⟨(clean_markdown_content md).1, .urlToMd, .markdown, env.elapsed 0,
           (clean_markdown_content md).2⟩ ∧
    (fetch_article url cfg env st).2.trace =
      [FetchEvent.httpGet url, FetchEvent.urlToMdCall url] := by
  obtain ⟨t, mr, ac⟩ := cfg
  cases ac with
  | false =>
    have hloop : fetch_article url ⟨t, mr, false⟩ env st =
        fetchLoop url ⟨t, mr, false⟩ env (mr + 1) none (initCtx st) := rfl
    rw [hloop]
    simp only [fetchLoop, doHttpGet, initCtx, hhttp]
    rw [if_pos (by norm_num : (400:Nat) ≤ 403)]
    rw [if_pos (Or.inl trivial)]
    simp only [_fetch_markdown_fallback, fallbackFinish, hmd]
    exact ⟨rfl, rfl⟩
  | true =>
    have hloop : fetch_article url ⟨t, mr, true⟩ env st =
        fetchLoop url ⟨t, mr, true⟩ env (mr + 1) none (initCtx st) := by
      simp only [fetch_article, (hcache rfl).1, (hcache rfl).2, if_true]
    rw [hloop]
    simp only [fetchLoop, doHttpGet, initCtx, hhttp]
    rw [if_pos (by norm_num : (400:Nat) ≤ 403)]
    rw [if_pos (Or.inl trivial)]
    simp only [_fetch_markdown_fallback, fallbackFinish, hmd, (hcache rfl).2, if_true]
    exact ⟨trivial, rfl⟩

/-- Witness for `fetch403_markdown_escalation` at a concrete 403 oracle. -/
theorem fetch403_markdown_escalation_witness :
    (fetch_article "https://x.example".toList ⟨10, 2, false⟩ cexEnv403 ⟨[], []⟩).2.trace =
      [FetchEvent.httpGet "https://x.example".toList,
       FetchEvent.urlToMdCall "https://x.example".toList] :=
  (fetch403_markdown_escalation "https://x.example".toList ⟨10, 2, false⟩ cexEnv403 ⟨[], []⟩
    "text/html".toList "Forbidden".toList "# Doc".toList
    (fun h => absurd h (by decide)) rfl rfl).2

/-! ## C8: retry behaviour of direct HTTP fetching -/

/-- C8 counterexample: with a transport failure on the first GET and a 2xx
response on the second, the whole fetch succeeds after two back-to-back GET
events with nothing — in particular no sleep — between or around them,
contradicting the claimed `2^attempt`-second backoff sleeps. -/
theorem fetch_retry_counterexample :
    (fetch_article "https://r.example".toList ⟨10, 5, false⟩ cexEnvRetry ⟨[], []⟩).1 =
      .ok ⟨"<html>ok</html>".toList, .httpx, .html, 1, []⟩ ∧
    (fetch_article "https://r.example".toList ⟨10, 5, false⟩ cexEnvRetry ⟨[], []⟩).2.trace =
      [FetchEvent.httpGet "https://r.example".toList,
       FetchEvent.httpGet "https://r.example".toList] ∧
    ((fetch_article "https://r.example".toList ⟨10, 5, false⟩ cexEnvRetry ⟨[], []⟩).2.trace.filter
        isSleepEvent) = [] :=
  ⟨rfl, rfl, rfl⟩

/-- Skipping `j` transport-failed GET attempts, a non-binary sub-400 response
on attempt `j` ends the retry loop successfully; the loop emits exactly one
GET event per attempt and nothing else. -/
theorem fetchLoop_netErr_then_success (url : Str) (cfg : FetchConfig) (env : FetchEnv)
    (status : Nat) (ct body : Str)
    (hstatus : status < 400) (hct : isBinaryContentType ct = false) :
    ∀ (j : Nat) (m : Nat → Str) (n : Nat), j < n → ∀ (lastErr : Option Str) (ctx : FetchCtx),
      (∀ k < j, env.http (ctx.httpK + k) = .netErr (m k)) →
      env.http (ctx.httpK + j) = .resp status ct body →
      fetchLoop url cfg env n lastErr ctx =
        (.ok ⟨body, .httpx, .html, env.elapsed ctx.elapsedK, []⟩,
         { state := if cfg.allow_cache then
               { cacheHtml := cacheInsert url body ctx.state.cacheHtml,
                 cacheMd := ctx.state.cacheMd }
             else ctx.state,
           httpK := ctx.httpK + j + 1, mdK := ctx.mdK, jinaK := ctx.jinaK,
           elapsedK := ctx.elapsedK + 1,
           trace := ctx.trace ++ List.replicate (j + 1) (FetchEvent.httpGet url) }) := by
  intro j
  induction j with
  | zero =>
    intro m n hn lastErr ctx hfail hsucc
    obtain ⟨n', rfl⟩ : ∃ n', n = n' + 1 := ⟨n - 1, by omega⟩
    have hsucc0 : env.http ctx.httpK = .resp status ct body := by simpa using hsucc
    simp only [fetchLoop, doHttpGet, hsucc0]
    rw [if_neg (by omega), if_neg (by simp [hct])]
    simp [List.replicate]
  | succ j ih =>
    intro m n hn lastErr ctx hfail hsucc
    obtain ⟨n', rfl⟩ : ∃ n', n = n' + 1 := ⟨n - 1, by omega⟩
    have hfail0 : env.http ctx.httpK = .netErr (m 0) := by
      simpa using hfail 0 (by omega)
    simp only [fetchLoop, doHttpGet, hfail0]
    rw [ih (fun k => m (k + 1)) n' (by omega) (some (m 0))
      { ctx with httpK := ctx.httpK + 1, trace := ctx.trace ++ [FetchEvent.httpGet url] }
      (fun k hk => by
        have := hfail (k + 1) (by omega)
        simpa [Nat.add_assoc, Nat.add_comm 1 k] using this)
      (by
        have : ctx.httpK + 1 + j = ctx.httpK + (j + 1) := by omega
        rw [this]
        exact hsucc)]
    rw [show ctx.httpK + 1 + j + 1 = ctx.httpK + (j + 1) + 1 from by omega]
    rw [show (ctx.trace ++ [FetchEvent.httpGet url]) ++
          List.replicate (j + 1) (FetchEvent.httpGet url) =
        ctx.trace ++ List.replicate (j + 1 + 1) (FetchEvent.httpGet url) from by
      rw [List.append_assoc, List.replicate_succ]
      rfl]

/-- No sleep event occurs among any number of GET events. -/
theorem filter_isSleep_replicate_httpGet (n : Nat) (url : Str) :
    (List.replicate n (FetchEvent.httpGet url)).filter isSleepEvent = [] := by
  induction n with
  | zero => rfl
  | succ n ih => simp [List.replicate_succ, isSleepEvent, ih]

/-- C8 (amended): direct HTTP fetching retries a GET that fails with a
transport error immediately — there is no backoff sleep of any kind — for up
to `max_retries + 1` total attempts, and a 2xx response with a non-binary
content type terminates the retry loop successfully with the response body. -/
theorem fetch_retry_no_sleep (url : Str) (cfg : FetchConfig) (env : FetchEnv)
    (st : FetchState) (j status : Nat) (ct body : Str) (m : Nat → Str)
    (hcache : cfg.allow_cache = true →
      cacheLookup st.cacheHtml url = none ∧ cacheLookup st.cacheMd url = none)
    (hj : j ≤ cfg.max_retries)
    (hfail : ∀ k < j, env.http k = .netErr (m k))
    (hsucc : env.http j = .resp status ct body)
    (h2xx : 200 ≤ status ∧ status ≤ 299)
    (hct : isBinaryContentType ct = false) :
    (fetch_article url cfg env st).1 =
      .ok ⟨body, .httpx, .html, env.elapsed 0, []⟩ ∧
    (fetch_article url cfg env st).2.trace =
      List.replicate (j + 1) (FetchEvent.httpGet url) ∧
    ((fetch_article url cfg env st).2.trace.filter isSleepEvent) = [] := by
  have hloop := fetchLoop_netErr_then_success url cfg env status ct body
    (by omega) hct j m (cfg.max_retries + 1) (by omega) none (initCtx st)
    (fun k hk => by simpa [initCtx] using hfail k hk)
    (by simpa [initCtx] using hsucc)
  have harticle : fetch_article url cfg env st =
      fetchLoop url cfg env (cfg.max_retries + 1) none (initCtx st) := by
    obtain ⟨t, mr, ac⟩ := cfg
    cases ac with
    | false => rfl
    | true =>
      simp only [fetch_article, (hcache rfl).1, (hcache rfl).2, if_true]
  rw [harticle, hloop]
  refine ⟨rfl, by simp [initCtx], ?_⟩
  simp only [initCtx]
  rw [List.nil_append]
  exact filter_isSleep_replicate_httpGet (j + 1) url

/-- Witness for `fetch_retry_no_sleep`: one transport failure, then success
on the second attempt, with no sleep events. -/
theorem fetch_retry_no_sleep_witness :
    (fetch_article "https://r.example".toList ⟨10, 5, false⟩ cexEnvRetry ⟨[], []⟩).2.trace =
      List.replicate 2 (FetchEvent.httpGet "https://r.example".toList) :=
  (fetch_retry_no_sleep "https://r.example".toList ⟨10, 5, false⟩ cexEnvRetry ⟨[], []⟩
    1 200 "text/html".toList "<html>ok</html>".toList (fun _ => "boom".toList)
    (fun h => absurd h (by decide)) (by decide)
    (fun k hk => by
      obtain rfl : k = 0 := by omega
      rfl)
    rfl (by omega) (by decide)).2.1

/-! ## C4: cache round trip -/

/-- A successful `_fetch_markdown_fallback` with caching produces a
markdown-format outcome, leaves the HTML namespace untouched, and leaves the
markdown namespace answering the URL with the returned content. -/
theorem fallback_ok_facts (url : Str) (env : FetchEnv) (ctx : FetchCtx)
    (o : FetchOutcome) (ctx2 : FetchCtx)
    (h : _fetch_markdown_fallback url true env ctx = (.ok o, ctx2)) :
    o.format = .markdown ∧ ctx2.state.cacheHtml = ctx.state.cacheHtml ∧
      cacheLookup ctx2.state.cacheMd url = some o.content := by
  unfold _fetch_markdown_fallback at h
  rw [if_pos rfl] at h
  rcases hlk : cacheLookup ctx.state.cacheMd url with _ | cleaned
  all_goals rw [hlk] at h
  all_goals dsimp only at h
  · rcases hmd : env.urltomd ctx.mdK with e1 | md
    all_goals rw [hmd] at h
    all_goals dsimp only at h
    · rcases hj : env.jina ctx.jinaK with e2 | md2
      all_goals rw [hj] at h
      all_goals dsimp only at h
      · exact absurd h (by simp)
      · simp only [fallbackFinish, if_true] at h
        injection h with ho hctx
        injection ho with ho
        subst ho
        subst hctx
        exact ⟨rfl, rfl, cacheLookup_insert_self url _ _⟩
    · simp only [fallbackFinish, if_true] at h
      injection h with ho hctx
      injection ho with ho
      subst ho
      subst hctx
      exact ⟨rfl, rfl, cacheLookup_insert_self url _ _⟩
  · injection h with ho hctx
    injection ho with ho
    subst ho
    subst hctx
    exact ⟨rfl, rfl, by rw [hlk]⟩

/-- A failed `_fetch_markdown_fallback` leaves both cache namespaces exactly
as they were. -/
theorem fallback_error_state (url : Str) (allowCache : Bool) (env : FetchEnv) (ctx : FetchCtx)
    (e : Str) (ctx2 : FetchCtx)
    (h : _fetch_markdown_fallback url allowCache env ctx = (.error e, ctx2)) :
    ctx2.state = ctx.state := by
  unfold _fetch_markdown_fallback at h
  rcases hlk : (if allowCache then cacheLookup ctx.state.cacheMd url else none) with _ | cleaned
  all_goals rw [hlk] at h
  all_goals dsimp only at h
  · rcases hmd : env.urltomd ctx.mdK with e1 | md
    all_goals rw [hmd] at h
    all_goals dsimp only at h
    · rcases hj : env.jina ctx.jinaK with e2 | md2
      all_goals rw [hj] at h
      all_goals dsimp only at h
      · injection h with ho hctx
        subst hctx
        rfl
      · simp only [fallbackFinish] at h
        exact absurd h (by simp)
    · simp only [fallbackFinish] at h
      exact absurd h (by simp)
  · exact absurd h (by simp)

/-- Every successful run of the retry loop with caching enabled leaves the
fetched content in the cache namespace matching the outcome's format: HTML
responses land in the HTML namespace, markdown-fallback results in the
markdown namespace with the HTML namespace still empty for the URL. -/
theorem fetchLoop_success_caches (url : Str) (cfg : FetchConfig) (env : FetchEnv)
    (hac : cfg.allow_cache = true) :
    ∀ (n : Nat) (lastErr : Option Str) (ctx : FetchCtx) (o : FetchOutcome) (ctx' : FetchCtx),
      cacheLookup ctx.state.cacheHtml url = none →
      fetchLoop url cfg env n lastErr ctx = (.ok o, ctx') →
      (o.format = .html ∧ cacheLookup ctx'.state.cacheHtml url = some o.content) ∨
      (o.format = .markdown ∧ cacheLookup ctx'.state.cacheHtml url = none ∧
        cacheLookup ctx'.state.cacheMd url = some o.content) := by
  intro n
  induction n with
  | zero =>
    intro lastErr ctx o ctx' _ h
    exact absurd h (by simp [fetchLoop])
  | succ n ih =>
    intro lastErr ctx o ctx' hnone h
    simp only [fetchLoop, doHttpGet] at h
    rcases hr : env.http ctx.httpK with ⟨status, ct, body⟩ | msg
    all_goals rw [hr] at h
    all_goals dsimp only at h
    case netErr =>
      exact ih _ _ _ _ (by simpa using hnone) h
    case resp =>
      by_cases h4 : 400 ≤ status
      · rw [if_pos h4] at h
        by_cases h403 : status = 403 ∨ status = 429 ∨ status = 503
        · rw [if_pos h403, hac] at h
          rcases hfb : _fetch_markdown_fallback url true env
              { state := ctx.state, httpK := ctx.httpK + 1, mdK := ctx.mdK,
                jinaK := ctx.jinaK, elapsedK := ctx.elapsedK,
                trace := ctx.trace ++ [FetchEvent.httpGet url] } with ⟨res, ctxf⟩
          rcases res with e | ofb
          · rw [hfb] at h
            dsimp only at h
            have hst := fallback_error_state url true env _ e ctxf hfb
            refine ih _ _ _ _ ?_ h
            rw [hst]
            exact hnone
          · rw [hfb] at h
            dsimp only at h
            injection h with h1 h2
            injection h1 with h1
            subst h1
            subst h2
            have hfacts := fallback_ok_facts url env _ ofb ctxf hfb
            exact Or.inr ⟨hfacts.1, by rw [hfacts.2.1]; exact hnone, hfacts.2.2⟩
        · rw [if_neg h403] at h
          exact ih _ _ _ _ (by simpa using hnone) h
      · rw [if_neg h4] at h
        by_cases hbin : isBinaryContentType ct = true
        · rw [if_pos hbin] at h
          rcases hs : htmlSiblingUrl url with _ | hurl
          all_goals rw [hs] at h
          all_goals dsimp only at h
          · rw [hac] at h
            rcases hfb : _fetch_markdown_fallback url true env
                { state := ctx.state, httpK := ctx.httpK + 1, mdK := ctx.mdK,
                  jinaK := ctx.jinaK, elapsedK := ctx.elapsedK,
                  trace := ctx.trace ++ [FetchEvent.httpGet url] } with ⟨res, ctxf⟩
            rcases res with e | ofb
            all_goals rw [hfb] at h
            all_goals dsimp only at h
            · exact absurd h (by simp)
            · injection h with h1 h2
              injection h1 with h1
              subst h1
              subst h2
              have hfacts := fallback_ok_facts url env _ ofb ctxf hfb
              exact Or.inr ⟨hfacts.1, by rw [hfacts.2.1]; exact hnone, hfacts.2.2⟩
          · rcases hr2 : env.http (ctx.httpK + 1) with ⟨s2, ct2, body2⟩ | msg2
            all_goals rw [hr2] at h
            all_goals dsimp only at h
            · by_cases hcond : s2 < 400 ∧ containsSub "html".toList (pyLower ct2) = true
              · rw [if_pos hcond] at h
                dsimp only at h
                injection h with h1 h2
                injection h1 with h1
                subst h1
                subst h2
                rw [hac]
                refine Or.inl ⟨rfl, ?_⟩
                dsimp only
                rw [if_pos rfl]
                exact cacheLookup_insert_self url _ _
              · rw [if_neg hcond] at h
                dsimp only at h
                rw [hac] at h
                rcases hfb : _fetch_markdown_fallback url true env
                    { state := ctx.state, httpK := ctx.httpK + 1 + 1, mdK := ctx.mdK,
                      jinaK := ctx.jinaK, elapsedK := ctx.elapsedK,
                      trace := ctx.trace ++ [FetchEvent.httpGet url] ++
                        [FetchEvent.httpGet hurl] } with ⟨res, ctxf⟩
                rcases res with e | ofb
                all_goals rw [hfb] at h
                all_goals dsimp only at h
                · exact absurd h (by simp)
                · injection h with h1 h2
                  injection h1 with h1
                  subst h1
                  subst h2
                  have hfacts := fallback_ok_facts url env _ ofb ctxf hfb
                  exact Or.inr ⟨hfacts.1, by rw [hfacts.2.1]; exact hnone, hfacts.2.2⟩
            · rw [hac] at h
              rcases hfb : _fetch_markdown_fallback url true env
                  { state := ctx.state, httpK := ctx.httpK + 1 + 1, mdK := ctx.mdK,
                    jinaK := ctx.jinaK, elapsedK := ctx.elapsedK,
                    trace := ctx.trace ++ [FetchEvent.httpGet url] ++
                      [FetchEvent.httpGet hurl] } with ⟨res, ctxf⟩
              rcases res with e | ofb
              all_goals rw [hfb] at h
              all_goals dsimp only at h
              · exact absurd h (by simp)
              · injection h with h1 h2
                injection h1 with h1
                subst h1
                subst h2
                have hfacts := fallback_ok_facts url env _ ofb ctxf hfb
                exact Or.inr ⟨hfacts.1, by rw [hfacts.2.1]; exact hnone, hfacts.2.2⟩
        · rw [if_neg hbin] at h
          injection h with h1 h2
          injection h1 with h1
          subst h1
          subst h2
          rw [hac]
          exact Or.inl ⟨rfl, by dsimp only; rw [if_pos rfl]; exact cacheLookup_insert_self url _ _⟩


/-- C4: after a successful `fetch_article(url)` with caching allowed, an
immediately repeated `fetch_article(url)` — under any network oracle —
returns identical content from the cache namespace matching the first
outcome's format, records the corresponding cache-tagged strategy
(`httpx-cache` or `url-to-md-cache`) with duration 0, and performs no network
interaction at all (its event trace is empty). -/
theorem fetch_cache_round_trip (url : Str) (cfg : FetchConfig) (env : FetchEnv)
    (st : FetchState) (o : FetchOutcome) (ctx' : FetchCtx)
    (hac : cfg.allow_cache = true)
    (h : fetch_article url cfg env st = (.ok o, ctx')) (env' : FetchEnv) :
    (o.format = .html →
      fetch_article url cfg env' ctx'.state =
        (.ok ⟨o.content, .httpxCache, .html, 0, []⟩, initCtx ctx'.state)) ∧
    (o.format = .markdown →
      fetch_article url cfg env' ctx'.state =
        (.ok ⟨o.content, .urlToMdCache, .markdown, 0, []⟩, initCtx ctx'.state)) ∧
    (fetch_article url cfg env' ctx'.state).2.trace = [] := by
  have hfacts : (o.format = .html ∧ cacheLookup ctx'.state.cacheHtml url = some o.content) ∨
      (o.format = .markdown ∧ cacheLookup ctx'.state.cacheHtml url = none ∧
        cacheLookup ctx'.state.cacheMd url = some o.content) := by
    unfold fetch_article at h
    rw [if_pos hac] at h
    rcases hh : cacheLookup st.cacheHtml url with _ | c
    all_goals rw [hh] at h
    all_goals dsimp only at h
    · rcases hm : cacheLookup st.cacheMd url with _ | c
      all_goals rw [hm] at h
      all_goals dsimp only at h
      · exact fetchLoop_success_caches url cfg env hac _ none (initCtx st) o ctx'
          (by simpa [initCtx] using hh) h
      · injection h with h1 h2
        injection h1 with h1
        subst h1
        subst h2
        exact Or.inr ⟨rfl, by simpa [initCtx] using hh, by simpa [initCtx] using hm⟩
    · injection h with h1 h2
      injection h1 with h1
      subst h1
      subst h2
      exact Or.inl ⟨rfl, by simpa [initCtx] using hh⟩
  rcases hfacts with ⟨hfmt, hlk⟩ | ⟨hfmt, hlk1, hlk2⟩
  · have hcall : fetch_article url cfg env' ctx'.state =
        (.ok ⟨o.content, .httpxCache, .html, 0, []⟩, initCtx ctx'.state) := by
      unfold fetch_article
      rw [if_pos hac, hlk]
    refine ⟨fun _ => hcall, fun hmd => ?_, by rw [hcall]; rfl⟩
    rw [hfmt] at hmd
    exact absurd hmd (by decide)
  · have hcall : fetch_article url cfg env' ctx'.state =
        (.ok ⟨o.content, .urlToMdCache, .markdown, 0, []⟩, initCtx ctx'.state) := by
      unfold fetch_article
      rw [if_pos hac, hlk1, hlk2]
    refine ⟨fun hh => ?_, fun _ => hcall, by rw [hcall]; rfl⟩
    rw [hfmt] at hh
    exact absurd hh (by decide)

/-- Witness for `fetch_cache_round_trip`: repeating the retried fetch hits
the HTML cache with duration 0 and an empty trace. -/
theorem fetch_cache_round_trip_witness :
    fetch_article "https://r.example".toList ⟨10, 5, true⟩ cexEnvRetry
      (FetchState.mk [("https://r.example".toList, "<html>ok</html>".toList)] []) =
      (.ok ⟨"<html>ok</html>".toList, .httpxCache, .html, 0, []⟩,
       initCtx (FetchState.mk [("https://r.example".toList, "<html>ok</html>".toList)] [])) :=
  (fetch_cache_round_trip "https://r.example".toList ⟨10, 5, true⟩ cexEnvRetry ⟨[], []⟩
    ⟨"<html>ok</html>".toList, .httpx, .html, 1, []⟩
    ⟨⟨[("https://r.example".toList, "<html>ok</html>".toList)], []⟩, 2, 0, 0, 1,
     [FetchEvent.httpGet "https://r.example".toList,
      FetchEvent.httpGet "https://r.example".toList]⟩
    rfl rfl cexEnvRetry).1 rfl
